import Mathlib

/-!
The HTTP transport layer of go-rest.

A shallow embedding of `internal/transport/http/handler.go`: the route table
built by `SetupRoutes`, the five comment handlers, the liveness route and the
two response helpers, followed by the properties of the specification that
concern them.

Conventions of the embedding.

* A Go `error` is the value of its `Error()` method.
* A `http.ResponseWriter` is seen from the handler: it records the calls made
  on it (`Header().Set`, `WriteHeader`, `Write`), and `writeErr` is the error
  its `Write` method answers, if any.
* A response body is recorded as the JSON value that `json.Encoder.Encode`
  marshals and hands to `Write`.
* The comment service is a parameter: state-passing functions over a store of
  type `σ`; every call a handler makes on it is logged in `Result.calls`.
* `uint` is 64 bits wide; the conversion `uint(x)` is `x % 2 ^ UintSize`.
-/

namespace GoRest

/-! ## Values shared with the standard library -/

/-- A Go `error`, represented by the text its `Error()` method returns. -/
structure GoError where
  Error : String
deriving DecidableEq, Repr

/-- JSON values, as produced by `encoding/json`. -/
inductive Json where
  | null : Json
  | num (n : Int) : Json
  | str (s : String) : Json
  | arr (items : List Json) : Json
  | obj (fields : List (String × Json)) : Json
deriving Repr

/-- Marshalling of a Go value to JSON (`json.Marshal`). -/
class Marshal (α : Type) where
  marshal : α → Json

/-- Width of the Go type `uint` on the 64-bit platforms the service targets. -/
def UintSize : Nat := 64

/-- The conversion `uint(x)` of a `uint64` value. -/
def uint (x : Nat) : Nat := x % 2 ^ UintSize

/-! ## strconv.ParseUint, base 10, bitSize 64 -/

/-- The error `*strconv.NumError`: the failing function, the input and the cause. -/
structure NumError where
  Func : String
  Num : String
  Err : String
deriving DecidableEq, Repr

/-- `strconv.ErrSyntax`. -/
def ErrSyntaxText : String := "invalid syntax"

/-- `strconv.ErrRange`. -/
def ErrRangeText : String := "value out of range"

def syntaxError (fn str : String) : NumError := ⟨fn, str, ErrSyntaxText⟩

def rangeError (fn str : String) : NumError := ⟨fn, str, ErrRangeText⟩

def maxUint64 : Nat := 2 ^ 64 - 1

/-- The smallest number such that `cutoff * 10 > maxUint64`. -/
def cutoff : Nat := maxUint64 / 10 + 1

/-- The `lower` helper of strconv: `c | ('x' - 'X')`. -/
def lower (c : Nat) : Nat := c ||| 32

/-- The digit a byte stands for in `ParseUint`: `some d` for a decimal digit or
a letter (whose value is 10 or more), `none` for any other byte (the `default`
branch). A character outside ASCII is a run of bytes of value 128 or more, all
of which take the `default` branch, as the character itself does here. -/
def digitVal (c : Char) : Option Nat :=
  let b := c.toNat
  if 48 ≤ b ∧ b ≤ 57 then some (b - 48)
  else if 97 ≤ lower b ∧ lower b ≤ 122 then some (lower b - 97 + 10)
  else none

/-- The loop of `ParseUint` over the bytes of the input, with `base = 10` and
`bitSize = 64`; `n` is the `uint64` accumulator. -/
def parseLoop (s0 : String) : List Char → Nat → Except NumError Nat
  | [], n => .ok n
  | c :: cs, n =>
    match digitVal c with
    | none => .error (syntaxError "ParseUint" s0)
    | some d =>
      if d ≥ 10 then .error (syntaxError "ParseUint" s0)
      else if n ≥ cutoff then .error (rangeError "ParseUint" s0)
      else
        let n10 := (n * 10) % 2 ^ 64
        let n1 := (n10 + d) % 2 ^ 64
        if n1 < n10 ∨ n1 > maxUint64 then .error (rangeError "ParseUint" s0)
        else parseLoop s0 cs n1

/-- The call `strconv.ParseUint(s, 10, 64)`. -/
def ParseUint (s : String) : Except NumError Nat :=
  if s = "" then .error (syntaxError "ParseUint" s)
  else parseLoop s s.toList 0

/-- Standard-library behaviour taken as given: `strconv.Quote`, used in the text
of a `NumError`, and `json.NewDecoder(body).Decode(&cmt)` for a comment. -/
structure Lib (Comment : Type) where
  Quote : String → String
  Decode : String → Except GoError Comment

/-- The method `(*NumError).Error`, giving the `error` a `NumError` is. -/
def NumError.toError (quote : String → String) (e : NumError) : GoError :=
  ⟨"strconv." ++ e.Func ++ ": parsing " ++ quote e.Num ++ ": " ++ e.Err⟩

/-! ## The comment package (not part of the transport layer) -/

/-- Modelled from the spec: the `Comment` entity of the missing package
`internal/comment`, with the fields `id`, `slug`, `body` and `author` of the
data model. -/
structure Comment where
  id : Nat
  slug : String
  body : String
  author : String
deriving DecidableEq, Repr

/-- Modelled from the spec: the wire shape of a `Comment`, which belongs to the
missing package `internal/comment`: an object with the fields `id`, `slug`,
`body` and `author`. -/
def Comment.toJson (c : Comment) : Json :=
  .obj [("id", .num c.id), ("slug", .str c.slug), ("body", .str c.body), ("author", .str c.author)]

instance : Marshal Comment := ⟨Comment.toJson⟩

/-- A Go slice of comments: `none` is the nil slice, which marshals to `null`. -/
abbrev Comments := Option (List Comment)

instance : Marshal Comments :=
  ⟨fun cs => match cs with
    | none => .null
    | some l => .arr (l.map Comment.toJson)⟩

/-- The methods of `*comment.Service` that the handlers call, over a store `σ`.
A Go result `(v, err)` is `.error err` when `err != nil`, the only case in which
the handlers do not read `v`. -/
structure Service (σ : Type) where
  GetComment : Nat → σ → Except GoError Comment × σ
  GetAllComments : σ → Except GoError Comments × σ
  PostComment : Comment → σ → Except GoError Comment × σ
  UpdateComment : Nat → Comment → σ → Except GoError Comment × σ
  DeleteComment : Nat → σ → Option GoError × σ

/-- A call made on the service, with its arguments. -/
inductive Call where
  | GetComment (id : Nat)
  | GetAllComments
  | PostComment (c : Comment)
  | UpdateComment (id : Nat) (c : Comment)
  | DeleteComment (id : Nat)
deriving DecidableEq, Repr

/-! ## net/http -/

def StatusOK : Nat := 200

def StatusInternalServerError : Nat := 500

/-- A `http.ResponseWriter` as the handler sees it: the header map, the codes
passed to `WriteHeader` and the documents passed to `Write`, in order, and the
error `Write` answers (`none` when the write succeeds). A document is recorded
when it is passed to `Write`, whatever `Write` answers. -/
structure ResponseWriter where
  header : List (String × String)
  status : List Nat
  written : List Json
  writeErr : Option GoError

/-- A writer on which nothing has been called yet. -/
def ResponseWriter.fresh (writeErr : Option GoError) : ResponseWriter :=
  ⟨[], [], [], writeErr⟩

/-- The call `w.Header().Set(key, value)`. -/
def ResponseWriter.SetHeader (w : ResponseWriter) (key value : String) : ResponseWriter :=
  { w with header := (key, value) :: w.header.filter (fun kv => kv.1 ≠ key) }

/-- The call `w.Header().Get(key)`. -/
def ResponseWriter.GetHeader (w : ResponseWriter) (key : String) : Option String :=
  (w.header.find? (fun kv => kv.1 = key)).map Prod.snd

/-- The call `w.WriteHeader(code)`. -/
def ResponseWriter.WriteHeader (w : ResponseWriter) (code : Nat) : ResponseWriter :=
  { w with status := w.status ++ [code] }

/-- The call `json.NewEncoder(w).Encode(v)`: marshal `v`, hand the document to
`w.Write` and return the error of that call. -/
def Encode {α : Type} [Marshal α] (w : ResponseWriter) (v : α) : ResponseWriter × Option GoError :=
  ({ w with written := w.written ++ [Marshal.marshal v] }, w.writeErr)

/-- An incoming request: method, URL path, the route variables set by the router
(`mux.Vars`) and the body. -/
structure Request where
  Method : String
  Path : String
  Vars : List (String × String)
  Body : String
deriving DecidableEq, Repr

/-- The lookup `mux.Vars(r)[key]`; a missing key gives the empty string. -/
def muxVars (r : Request) (key : String) : String :=
  ((r.Vars.find? (fun kv => kv.1 = key)).map Prod.snd).getD ""

/-! ## handler.go -/

/-- Response - an object to store responses from the API. -/
structure Response where
  Message : String
  Error : String := ""
deriving DecidableEq, Repr

/-- The struct has no field tags: both exported fields are written, in
declaration order, under their Go names. -/
instance : Marshal Response :=
  ⟨fun r => .obj [("Message", .str r.Message), ("Error", .str r.Error)]⟩

/-- How a handler invocation ends. -/
inductive Outcome where
  | returned
  | panicked (err : GoError)
deriving DecidableEq, Repr

/-- What a handler invocation leaves behind: how it ended, the writer, the store
of the service and the calls made on the service, in order. -/
structure Result (σ : Type) where
  outcome : Outcome
  w : ResponseWriter
  store : σ
  calls : List Call

def sendOkResponse {α : Type} [Marshal α] (w : ResponseWriter) (resp : α) :
    ResponseWriter × Option GoError :=
  let w1 := w.SetHeader "Content-Type" "application/json; charset=UTF-8"
  let w2 := w1.WriteHeader StatusOK
  Encode w2 resp

def sendErrorResponse (w : ResponseWriter) (message : String) (err : GoError) :
    ResponseWriter × Outcome :=
  let w1 := w.SetHeader "Content-Type" "application/json; charset=UTF-8"
  let w2 := w1.WriteHeader StatusInternalServerError
  match Encode w2 ({ Message := message, Error := err.Error } : Response) with
  | (w3, some e) => (w3, .panicked e)
  | (w3, none) => (w3, .returned)

/-- The tail shared by the handlers: `if err := sendOkResponse(w, v); err != nil { panic(err) }`. -/
def okOrPanic {σ α : Type} [Marshal α] (w : ResponseWriter) (resp : α) (s : σ)
    (calls : List Call) : Result σ :=
  match sendOkResponse w resp with
  | (w1, some e) => ⟨.panicked e, w1, s, calls⟩
  | (w1, none) => ⟨.returned, w1, s, calls⟩

/-- The branch shared by the handlers: `sendErrorResponse(w, message, err); return`. -/
def errorAndReturn {σ : Type} (w : ResponseWriter) (message : String) (err : GoError) (s : σ)
    (calls : List Call) : Result σ :=
  let p := sendErrorResponse w message err
  ⟨p.2, p.1, s, calls⟩

/-! ### The router (gorilla/mux) -/

/-- The function a route is bound to. -/
inductive Op where
  | GetAllComments
  | PostComment
  | GetComment
  | UpdateComment
  | DeleteComment
  | Health
deriving DecidableEq, Repr

/-- A piece of a compiled path template: literal text, or a variable, which
stands for the pattern `[^/]+`. -/
inductive Part where
  | lit (text : List Char)
  | var (name : String)
deriving DecidableEq, Repr

/-- The literal text collected so far, as a part of its own when there is any. -/
def flushLit (text : List Char) : List Part :=
  if text = [] then [] else [.lit text]

/-- Compilation of a path template: text between braces names a variable, the
rest is literal. `text` is the literal read so far, `name` the variable being
read, if any. -/
def compileTemplate : List Char → List Char → Option (List Char) → List Part
  | [], text, _ => flushLit text
  | c :: cs, text, none =>
    if c = '\x7b' then flushLit text ++ compileTemplate cs [] (some [])
    else compileTemplate cs (text ++ [c]) none
  | c :: cs, text, some name =>
    if c = '\x7d' then .var (String.mk name) :: compileTemplate cs [] none
    else compileTemplate cs text (some (name ++ [c]))

/-- Matching of a whole path against a compiled template, as the anchored
regular expression of the route does; the result is the value of each variable.
A variable takes the longest run of characters other than `/`, which must not be
empty. -/
def matchParts : List Part → List Char → Option (List (String × String))
  | [], [] => some []
  | [], _ :: _ => none
  | .lit text :: ps, cs =>
    if text.isPrefixOf cs then matchParts ps (cs.drop text.length) else none
  | .var name :: ps, cs =>
    let v := cs.takeWhile (fun c => c != '/')
    if v.isEmpty then none
    else (matchParts ps (cs.drop v.length)).map (fun vars => (name, String.mk v) :: vars)

/-- A route: `HandleFunc(path, f)`, with `.Methods(...)` when `methods` is not
empty. -/
structure Route where
  path : String
  methods : List String
  op : Op
deriving DecidableEq, Repr

/-- The variables of the path when the route matches the request: the path
matches the template and the method is one of the route's, if it names any. -/
def Route.Match (rt : Route) (method path : String) : Option (List (String × String)) :=
  match matchParts (compileTemplate rt.path.toList [] none) path.toList with
  | none => none
  | some vars => if rt.methods = [] ∨ method ∈ rt.methods then some vars else none

/-- The lookup `Router.Match`: the first route, in registration order, that
matches. -/
def routerMatch : List Route → String → String → Option (Op × List (String × String))
  | [], _, _ => none
  | rt :: rest, method, path =>
    match rt.Match method path with
    | some vars => some (rt.op, vars)
    | none => routerMatch rest method path

/-- Handler - stores pointer to comment service. -/
structure Handler (σ : Type) where
  Router : List Route
  Service : Service σ

/-- NewHandler - returns a pointer to a Handler. -/
def NewHandler {σ : Type} (service : Service σ) : Handler σ :=
  { Router := [], Service := service }

/-- SetupRoutes - sets up all the routes to the application. (The line printed
on standard output is left out.) -/
def Handler.SetupRoutes {σ : Type} (h : Handler σ) : Handler σ :=
  { h with Router :=
      [ ⟨"/api/comments", ["GET"], .GetAllComments⟩,
        ⟨"/api/comments", ["POST"], .PostComment⟩,
        ⟨"/api/comments/{id}", ["GET"], .GetComment⟩,
        ⟨"/api/comments/{id}", ["PUT"], .UpdateComment⟩,
        ⟨"/api/comments/{id}", ["DELETE"], .DeleteComment⟩,
        ⟨"/api/health", [], .Health⟩ ] }

/-! ### The handlers -/

/-- The function literal registered for `/api/health`. -/
def Handler.Health {σ : Type} (_h : Handler σ) (w : ResponseWriter) (_r : Request) (s : σ) :
    Result σ :=
  okOrPanic w ({ Message := "I am alive!" } : Response) s []

/-- GetComment - retrieves comment by ID. -/
def Handler.GetComment {σ : Type} (lib : Lib Comment) (h : Handler σ) (w : ResponseWriter)
    (r : Request) (s : σ) : Result σ :=
  let id := muxVars r "id"
  match ParseUint id with
  | .error err => errorAndReturn w "Unable to parse UINT from ID" (err.toError lib.Quote) s []
  | .ok i =>
    match h.Service.GetComment (uint i) s with
    | (.error err, s1) =>
      errorAndReturn w "Error retrieving comment by ID" err s1 [.GetComment (uint i)]
    | (.ok cmt, s1) => okOrPanic w cmt s1 [.GetComment (uint i)]

/-- GetAllComments - retrieves all comments from the comment service. -/
def Handler.GetAllComments {σ : Type} (h : Handler σ) (w : ResponseWriter) (_r : Request)
    (s : σ) : Result σ :=
  match h.Service.GetAllComments s with
  | (.error err, s1) => errorAndReturn w "Failed to retrieve all comments" err s1 [.GetAllComments]
  | (.ok cmts, s1) => okOrPanic w cmts s1 [.GetAllComments]

/-- Postcomment - adds a new comment. -/
def Handler.PostComment {σ : Type} (lib : Lib Comment) (h : Handler σ) (w : ResponseWriter)
    (r : Request) (s : σ) : Result σ :=
  match lib.Decode r.Body with
  | .error err => errorAndReturn w "Failed to decode JSON body" err s []
  | .ok cmt =>
    match h.Service.PostComment cmt s with
    | (.error err, s1) => errorAndReturn w "Failed to add new comment" err s1 [.PostComment cmt]
    | (.ok cmt1, s1) => okOrPanic w cmt1 s1 [.PostComment cmt]

/-- UpdateCooment - updates a comment by ID. -/
def Handler.UpdateComment {σ : Type} (lib : Lib Comment) (h : Handler σ) (w : ResponseWriter)
    (r : Request) (s : σ) : Result σ :=
  match lib.Decode r.Body with
  | .error err => errorAndReturn w "Failed to decode JSON body" err s []
  | .ok cmt =>
    let id := muxVars r "id"
    match ParseUint id with
    | .error err => errorAndReturn w "Unable to parse UINT from ID" (err.toError lib.Quote) s []
    | .ok commentID =>
      match h.Service.UpdateComment (uint commentID) cmt s with
      | (.error err, s1) =>
        errorAndReturn w "Failed to update comment" err s1 [.UpdateComment (uint commentID) cmt]
      | (.ok cmt1, s1) => okOrPanic w cmt1 s1 [.UpdateComment (uint commentID) cmt]

/-- DeleteComment - deletes a comment by ID. -/
def Handler.DeleteComment {σ : Type} (lib : Lib Comment) (h : Handler σ) (w : ResponseWriter)
    (r : Request) (s : σ) : Result σ :=
  let id := muxVars r "id"
  match ParseUint id with
  | .error err => errorAndReturn w "Unable to parse UINT from ID" (err.toError lib.Quote) s []
  | .ok commentID =>
    match h.Service.DeleteComment (uint commentID) s with
    | (some err, s1) =>
      errorAndReturn w "Error deleting comment by ID" err s1 [.DeleteComment (uint commentID)]
    | (none, s1) =>
      okOrPanic w ({ Message := "Successfully deleted comment" } : Response) s1
        [.DeleteComment (uint commentID)]

/-- The function bound to a route. -/
def Handler.run {σ : Type} (lib : Lib Comment) (h : Handler σ) (op : Op) (w : ResponseWriter)
    (r : Request) (s : σ) : Result σ :=
  match op with
  | .GetAllComments => h.GetAllComments w r s
  | .PostComment => h.PostComment lib w r s
  | .GetComment => h.GetComment lib w r s
  | .UpdateComment => h.UpdateComment lib w r s
  | .DeleteComment => h.DeleteComment lib w r s
  | .Health => h.Health w r s

/-- Serving a request through the router, as `http.ListenAndServe(":8080",
handler.Router)` does for each request: the route found by `routerMatch` runs
with the path variables set. The result is `none` when no route matches; the
router then answers by itself and no function of this package runs. The path is
taken in the canonical form in which the router consults its table (no empty,
`.` or `..` segment); a request in another form is redirected by the router
before any lookup, which is not part of this embedding. -/
def Handler.ServeHTTP {σ : Type} (lib : Lib Comment) (h : Handler σ) (w : ResponseWriter)
    (r : Request) (s : σ) : Option (Result σ) :=
  match routerMatch h.Router r.Method r.Path with
  | none => none
  | some (op, vars) => some (h.run lib op w { r with Vars := vars } s)

/-! ### Sample collaborators, used to instantiate the statements below -/

/-- Modelled from the spec: the Comment Service of the missing package
`internal/comment` over an in-memory list of rows: lookup by `id` failing with
"record not found", insertion under the next free `id`, update and delete by
`id`. -/
def memoryService : Service (List Comment) where
  GetComment := fun id rows =>
    match rows.find? (fun c => c.id = id) with
    | some c => (.ok c, rows)
    | none => (.error ⟨"record not found"⟩, rows)
  GetAllComments := fun rows => (.ok (some rows), rows)
  PostComment := fun d rows =>
    let c := { d with id := (rows.map Comment.id).foldl max 0 + 1 }
    (.ok c, rows ++ [c])
  UpdateComment := fun id d rows =>
    match rows.find? (fun c => c.id = id) with
    | some _ =>
      let c := { d with id := id }
      (.ok c, rows.map (fun x => if x.id = id then c else x))
    | none => (.error ⟨"record not found"⟩, rows)
  DeleteComment := fun id rows =>
    match rows.find? (fun c => c.id = id) with
    | some _ => (none, rows.filter (fun c => c.id ≠ id))
    | none => (some ⟨"record not found"⟩, rows)

/-- A service whose persistence layer is down: every operation fails. -/
def failingService : Service Unit where
  GetComment := fun _ s => (.error ⟨"connection refused"⟩, s)
  GetAllComments := fun s => (.error ⟨"connection refused"⟩, s)
  PostComment := fun _ s => (.error ⟨"connection refused"⟩, s)
  UpdateComment := fun _ _ s => (.error ⟨"connection refused"⟩, s)
  DeleteComment := fun _ s => (some ⟨"connection refused"⟩, s)

/-- A decoder that knows two bodies: the empty object, which leaves the comment
at its zero value, and the object with `id` 9 and slug `s1`; on anything else it
fails as on an empty body. The quoting adds the two quotation marks. -/
def sampleLib : Lib Comment where
  Quote := fun s => "\"" ++ s ++ "\""
  Decode := fun body =>
    if body = "\x7b\x7d" then .ok ⟨0, "", "", ""⟩
    else if body = "\x7b\"id\":9,\"slug\":\"s1\"\x7d" then .ok ⟨9, "s1", "", ""⟩
    else .error ⟨"EOF"⟩

/-- The handler of the running service, over the in-memory rows. -/
def sampleHandler : Handler (List Comment) := (NewHandler memoryService).SetupRoutes

/-- The handler over the service whose persistence layer is down. -/
def failingHandler : Handler Unit := (NewHandler failingService).SetupRoutes

/-- A store holding one comment, of id 7. -/
def sampleRows : List Comment := [⟨7, "s7", "hello", "alice"⟩]

/-- A request whose path id is `abc`, with the empty object as body. -/
def reqBadId : Request := ⟨"PUT", "/api/comments/abc", [("id", "abc")], "\x7b\x7d"⟩

/-- A request for the comment 7 with an empty body. -/
def reqBadBody : Request := ⟨"PUT", "/api/comments/7", [("id", "7")], ""⟩

/-- A request for the comment 7, written `007`, whose body names the id 9. -/
def reqSeven : Request :=
  ⟨"PUT", "/api/comments/007", [("id", "007")], "\x7b\"id\":9,\"slug\":\"s1\"\x7d"⟩

/-- A request for the comment 5, which `sampleRows` does not hold. -/
def reqFive : Request := ⟨"PUT", "/api/comments/5", [("id", "5")], "\x7b\x7d"⟩

/-- A request whose path id is the largest `uint64`, with leading zeros. -/
def reqMax : Request :=
  ⟨"PUT", "/api/comments/0018446744073709551615", [("id", "0018446744073709551615")],
    "\x7b\x7d"⟩

/-- A writer whose `Write` fails. -/
def brokenWriter : ResponseWriter := .fresh (some ⟨"write: broken pipe"⟩)

/-- A path id in the words of the specification: a non-empty string of decimal
digits. -/
def isDecimal (s : String) : Prop := s ≠ "" ∧ ∀ c ∈ s.toList, c.isDigit = true

/-- The numeric value of a string of decimal digits, leading zeros allowed. -/
def decimalValue (s : String) : Nat :=
  s.toList.foldl (fun n c => n * 10 + (c.toNat - 48)) 0

/-- A path segment that can stand for `{id}`: not empty and free of `/`. -/
def isSegment (s : String) : Prop := s ≠ "" ∧ '/' ∉ s.toList

instance (s : String) : Decidable (isDecimal s) :=
  inferInstanceAs (Decidable (s ≠ "" ∧ ∀ c ∈ s.toList, c.isDigit = true))

instance (s : String) : Decidable (isSegment s) :=
  inferInstanceAs (Decidable (s ≠ "" ∧ '/' ∉ s.toList))

/-- An error response in the words of the specification: between the writer
states `w0` and `w1` exactly one error response was written: one status, 500, the JSON content type, and one
document, an object with exactly the fields `Message` and `Error`. -/
def IsErrorResponse (w0 w1 : ResponseWriter) (message error : String) : Prop :=
  w1.status = w0.status ++ [500] ∧
  w1.GetHeader "Content-Type" = some "application/json; charset=UTF-8" ∧
  w1.written = w0.written ++ [.obj [("Message", .str message), ("Error", .str error)]]

/-- A successful response in the words of the specification: between the writer
states `w0` and `w1` exactly one successful response was written: one status, 200, the JSON content type, and
one document, `body`. -/
def IsOkResponse (w0 w1 : ResponseWriter) (body : Json) : Prop :=
  w1.status = w0.status ++ [200] ∧
  w1.GetHeader "Content-Type" = some "application/json; charset=UTF-8" ∧
  w1.written = w0.written ++ [body]

/-- How an invocation that writes one response ends, given what `Write`
answers: it returns when the write succeeds and panics with the error of the
write otherwise. -/
def EndsBy (w0 : ResponseWriter) (out : Outcome) : Prop :=
  (w0.writeErr = none → out = .returned) ∧ (∀ e, w0.writeErr = some e → out = .panicked e)

/-- Rejection at the handler boundary: the invocation rejected its input:
it made no call on the service, left the store as it was, wrote one error
response, and ended as `EndsBy` says. -/
def RejectsInput {σ : Type} (w0 : ResponseWriter) (s0 : σ) (res : Result σ) : Prop :=
  res.calls = [] ∧ res.store = s0 ∧
  (∃ message error, IsErrorResponse w0 res.w message error) ∧
  EndsBy w0 res.outcome

/-- One reply per request: the invocation made at most one call on the service
and wrote exactly one status, 200 or 500, under the JSON content type. -/
def OneReply {σ : Type} (w0 : ResponseWriter) (res : Result σ) : Prop :=
  res.calls.length ≤ 1 ∧
  (res.w.status = w0.status ++ [200] ∨ res.w.status = w0.status ++ [500]) ∧
  res.w.GetHeader "Content-Type" = some "application/json; charset=UTF-8"

/-! ## Properties -/

theorem isDigit_iff (c : Char) : c.isDigit = true ↔ 48 ≤ c.toNat ∧ c.toNat ≤ 57 := by
  simp [Char.isDigit, Char.toNat, UInt32.le_def, BitVec.le_def, UInt32.toNat]

theorem digitVal_of_isDigit (c : Char) (h : c.isDigit = true) :
    digitVal c = some (c.toNat - 48) := by
  have h1 := (isDigit_iff c).1 h
  simp [digitVal, h1]

theorem digitVal_lt_ten (c : Char) (d : Nat) (h : digitVal c = some d) (hd : d < 10) :
    c.isDigit = true := by
  rw [isDigit_iff]
  unfold digitVal at h
  simp only at h
  split at h
  · assumption
  · split at h
    · simp at h; omega
    · simp at h

theorem foldl_value_ge (cs : List Char) (n : Nat) :
    n ≤ cs.foldl (fun n c => n * 10 + (c.toNat - 48)) n := by
  induction cs generalizing n with
  | nil => simp
  | cons c cs ih =>
    simp only [List.foldl_cons]
    have := ih (n * 10 + (c.toNat - 48))
    omega

theorem parseLoop_decimal (s0 : String) (cs : List Char) (n : Nat)
    (hd : ∀ c ∈ cs, c.isDigit = true)
    (hv : cs.foldl (fun n c => n * 10 + (c.toNat - 48)) n < 2 ^ 64) :
    parseLoop s0 cs n = .ok (cs.foldl (fun n c => n * 10 + (c.toNat - 48)) n) := by
  induction cs generalizing n with
  | nil => simp [parseLoop]
  | cons c cs ih =>
    have hc : c.isDigit = true := hd c (List.mem_cons_self _ _)
    have hb := (isDigit_iff c).1 hc
    simp only [List.foldl_cons] at hv ⊢
    have hge := foldl_value_ge cs (n * 10 + (c.toNat - 48))
    have hrec := ih (n * 10 + (c.toNat - 48)) (fun x hx => hd x (List.mem_cons_of_mem _ hx)) hv
    have h64 : (2 : Nat) ^ 64 = 18446744073709551616 := by norm_num
    rw [h64] at hv
    unfold parseLoop
    rw [digitVal_of_isDigit c hc]
    have e1 : (n * 10) % 2 ^ 64 = n * 10 := Nat.mod_eq_of_lt (by omega)
    have e2 : (n * 10 + (c.toNat - 48)) % 2 ^ 64 = n * 10 + (c.toNat - 48) :=
      Nat.mod_eq_of_lt (by omega)
    simp only [e1, e2, cutoff, maxUint64]
    rw [if_neg (by omega), if_neg (by omega), if_neg (by omega)]
    exact hrec

theorem ParseUint_decimal (s : String) (hs : isDecimal s) (hv : decimalValue s < 2 ^ 64) :
    ParseUint s = .ok (decimalValue s) := by
  unfold ParseUint
  rw [if_neg hs.1]
  exact parseLoop_decimal s s.toList 0 hs.2 hv

theorem parseLoop_nondigit (s0 : String) (cs : List Char) (n : Nat)
    (h : ∃ c ∈ cs, c.isDigit ≠ true) : ∃ e, parseLoop s0 cs n = .error e := by
  induction cs generalizing n with
  | nil => simp at h
  | cons c cs ih =>
    unfold parseLoop
    cases hdv : digitVal c with
    | none => exact ⟨_, rfl⟩
    | some d =>
      simp only
      split
      · exact ⟨_, rfl⟩
      · split
        · exact ⟨_, rfl⟩
        · split
          · exact ⟨_, rfl⟩
          · apply ih
            obtain ⟨x, hx, hnd⟩ := h
            rcases List.mem_cons.1 hx with rfl | hx
            · exact absurd (digitVal_lt_ten x d hdv (by omega)) hnd
            · exact ⟨x, hx, hnd⟩

theorem ParseUint_not_decimal (s : String) (hs : ¬ isDecimal s) :
    ∃ e, ParseUint s = .error e := by
  unfold ParseUint
  by_cases he : s = ""
  · rw [if_pos he]; exact ⟨_, rfl⟩
  · rw [if_neg he]
    apply parseLoop_nondigit
    unfold isDecimal at hs
    push_neg at hs
    obtain ⟨c, hc, hnd⟩ := hs he
    exact ⟨c, hc, hnd⟩

theorem errorAndReturn_spec {σ : Type} (w : ResponseWriter) (message : String) (err : GoError)
    (s : σ) (calls : List Call) :
    (errorAndReturn w message err s calls).calls = calls ∧
    (errorAndReturn w message err s calls).store = s ∧
    IsErrorResponse w (errorAndReturn w message err s calls).w message err.Error ∧
    EndsBy w (errorAndReturn w message err s calls).outcome := by
  unfold errorAndReturn sendErrorResponse Encode IsErrorResponse EndsBy
  cases hw : w.writeErr <;>
    simp [hw, ResponseWriter.SetHeader, ResponseWriter.GetHeader, ResponseWriter.WriteHeader,
      StatusInternalServerError, Marshal.marshal]

theorem okOrPanic_spec {σ α : Type} [Marshal α] (w : ResponseWriter) (resp : α)
    (s : σ) (calls : List Call) :
    (okOrPanic w resp s calls).calls = calls ∧
    (okOrPanic w resp s calls).store = s ∧
    IsOkResponse w (okOrPanic w resp s calls).w (Marshal.marshal resp) ∧
    EndsBy w (okOrPanic w resp s calls).outcome := by
  unfold okOrPanic sendOkResponse Encode IsOkResponse EndsBy
  cases hw : w.writeErr <;>
    simp [hw, ResponseWriter.SetHeader, ResponseWriter.GetHeader, ResponseWriter.WriteHeader,
      StatusOK]

theorem compile_comments :
    compileTemplate "/api/comments".toList [] none = [.lit "/api/comments".toList] := by rfl

theorem compile_comment_id :
    compileTemplate "/api/comments/{id}".toList [] none
      = [.lit "/api/comments/".toList, .var "id"] := by rfl

theorem compile_health :
    compileTemplate "/api/health".toList [] none = [.lit "/api/health".toList] := by rfl

theorem matchParts_lit_isSome (t cs : List Char) :
    (matchParts [.lit t] cs).isSome = true ↔ cs = t := by
  unfold matchParts
  by_cases hp : t.isPrefixOf cs = true
  · rw [if_pos hp]
    obtain ⟨r, rfl⟩ := List.isPrefixOf_iff_prefix.1 hp
    rw [List.drop_left]
    cases r with
    | nil => simp [matchParts]
    | cons x xs => simp [matchParts]
  · rw [if_neg hp]
    constructor
    · intro h; simp at h
    · intro h
      subst h
      exact absurd (List.isPrefixOf_iff_prefix.2 (List.prefix_refl _)) hp

theorem matchParts_lit_var (t : List Char) (name id : String) (h : isSegment id) :
    matchParts [.lit t, .var name] (t ++ id.toList) = some [(name, id)] := by
  have hne : id.toList ≠ [] := by
    intro h0
    apply h.1
    cases id with
    | mk d => simp [String.toList] at h0; simp [h0]
  have htw : id.toList.takeWhile (fun c => c != '/') = id.toList := by
    rw [List.takeWhile_eq_self_iff]
    intro c hc
    have : c ≠ '/' := fun hcs => h.2 (hcs ▸ hc)
    simpa using this
  unfold matchParts
  rw [if_pos (List.isPrefixOf_iff_prefix.2 (List.prefix_append _ _)), List.drop_left]
  unfold matchParts
  simp only [htw]
  have : id.toList.isEmpty = false := by
    cases hl : id.toList with
    | nil => exact absurd hl hne
    | cons x xs => rfl
  rw [this, List.drop_length]
  simp [matchParts]

theorem matchParts_lit_nonempty (t r : List Char) (hr : r ≠ []) :
    matchParts [.lit t] (t ++ r) = none := by
  cases h : matchParts [.lit t] (t ++ r) with
  | none => rfl
  | some v =>
    have := (matchParts_lit_isSome t (t ++ r)).1 (by simp [h])
    simp at this
    exact absurd this hr

theorem match_list_route (m : String) (methods : List String) (op : Op) (id : String) :
    (Route.mk "/api/comments" methods op).Match m ("/api/comments/" ++ id) = none := by
  unfold Route.Match
  have hp : ("/api/comments/" ++ id).toList = "/api/comments".toList ++ ('/' :: id.toList) := by
    show ("/api/comments/" ++ id).data = _
    rw [String.data_append]
    rfl
  simp only [compile_comments, hp]
  rw [matchParts_lit_nonempty _ _ (by simp)]

theorem match_id_route (m : String) (methods : List String) (op : Op) (id : String)
    (h : isSegment id) :
    (Route.mk "/api/comments/{id}" methods op).Match m ("/api/comments/" ++ id)
      = if methods = [] ∨ m ∈ methods then some [("id", id)] else none := by
  unfold Route.Match
  have hp : ("/api/comments/" ++ id).toList = "/api/comments/".toList ++ id.toList := by
    show ("/api/comments/" ++ id).data = _
    rw [String.data_append]
    rfl
  simp only [compile_comment_id, hp]
  rw [matchParts_lit_var _ _ _ h]

theorem match_facts (rt : Route) (m p : String) (h : (rt.Match m p).isSome = true) :
    (matchParts (compileTemplate rt.path.toList [] none) p.toList).isSome = true ∧
      (rt.methods = [] ∨ m ∈ rt.methods) := by
  unfold Route.Match at h
  cases hm : matchParts (compileTemplate rt.path.toList [] none) p.toList with
  | none => rw [hm] at h; simp at h
  | some v =>
    rw [hm] at h
    by_cases hmeth : rt.methods = [] ∨ m ∈ rt.methods
    · exact ⟨rfl, hmeth⟩
    · simp only [if_neg hmeth] at h
      simp at h

theorem filter_length_le_one {α : Type} (f : α → Bool) (l : List α)
    (h : l.Pairwise (fun a b => f a = true → f b = true → False)) :
    (l.filter f).length ≤ 1 := by
  induction l with
  | nil => simp
  | cons a t ih =>
    rw [List.pairwise_cons] at h
    cases hfa : f a with
    | false =>
      rw [List.filter_cons_of_neg (by simp [hfa])]
      exact ih h.2
    | true =>
      rw [List.filter_cons_of_pos hfa]
      have : t.filter f = [] := by
        rw [List.filter_eq_nil_iff]
        intro b hb hfb
        exact h.1 b hb hfa hfb
      simp [this]

theorem excl_list_id (cs : List Char)
    (h1 : (matchParts [.lit "/api/comments".toList] cs).isSome = true)
    (h2 : (matchParts [.lit "/api/comments/".toList, .var "id"] cs).isSome = true) : False := by
  rw [(matchParts_lit_isSome _ _).1 h1] at h2
  revert h2
  decide

theorem excl_list_health (cs : List Char)
    (h1 : (matchParts [.lit "/api/comments".toList] cs).isSome = true)
    (h2 : (matchParts [.lit "/api/health".toList] cs).isSome = true) : False := by
  rw [(matchParts_lit_isSome _ _).1 h1] at h2
  revert h2
  decide

theorem excl_id_health (cs : List Char)
    (h1 : (matchParts [.lit "/api/comments/".toList, .var "id"] cs).isSome = true)
    (h2 : (matchParts [.lit "/api/health".toList] cs).isSome = true) : False := by
  rw [(matchParts_lit_isSome _ _).1 h2] at h1
  revert h1
  decide

theorem routes_unique {σ : Type} (h : Handler σ) (m p : String) :
    (h.SetupRoutes.Router.filter (fun rt => (rt.Match m p).isSome)).length ≤ 1 := by
  apply filter_length_le_one
  have e1 := compile_comments
  have e2 := compile_comment_id
  have e3 := compile_health
  simp only [Handler.SetupRoutes, List.pairwise_cons, List.mem_cons, List.mem_singleton,
    List.not_mem_nil, forall_eq_or_imp, forall_eq, List.Pairwise.nil, and_true, false_imp_iff,
    implies_true]
  refine ⟨⟨?_, ?_, ?_, ?_, ?_⟩, ⟨?_, ?_, ?_, ?_⟩, ⟨?_, ?_, ?_⟩, ⟨?_, ?_⟩, ?_⟩ <;>
    intro h1 h2 <;>
    have f1 := match_facts _ _ _ h1 <;>
    have f2 := match_facts _ _ _ h2 <;>
    simp only [e1, e2, e3] at f1 f2 <;>
    first
    | exact excl_list_id _ f1.1 f2.1
    | exact excl_list_health _ f1.1 f2.1
    | exact excl_id_health _ f1.1 f2.1
    | (have g1 := f1.2
       have g2 := f2.2
       simp only [List.mem_singleton, List.cons_ne_nil, false_or] at g1 g2
       rw [g1] at g2
       revert g2
       decide)

theorem uint_of_lt (v : Nat) (h : v < 2 ^ 64) : uint v = v := by
  unfold uint UintSize
  exact Nat.mod_eq_of_lt h

theorem status_ne (l : List Nat) : l ++ [200] ≠ l ++ [500] := by
  intro h
  have := List.append_cancel_left h
  simp at this

theorem oneReply_error {σ : Type} (w : ResponseWriter) (message : String) (err : GoError)
    (s : σ) (calls : List Call) (hc : calls.length ≤ 1) :
    OneReply w (errorAndReturn w message err s calls) := by
  have h := errorAndReturn_spec w message err s calls
  refine ⟨by rw [h.1]; exact hc, Or.inr h.2.2.1.1, h.2.2.1.2.1⟩

theorem oneReply_ok {σ α : Type} [Marshal α] (w : ResponseWriter) (resp : α)
    (s : σ) (calls : List Call) (hc : calls.length ≤ 1) :
    OneReply w (okOrPanic w resp s calls) := by
  have h := okOrPanic_spec w resp s calls
  refine ⟨by rw [h.1]; exact hc, Or.inl h.2.2.1.1, h.2.2.1.2.1⟩

theorem rejects_error {σ : Type} (w : ResponseWriter) (message : String) (err : GoError)
    (s : σ) : RejectsInput w s (errorAndReturn w message err s []) := by
  have h := errorAndReturn_spec w message err s []
  exact ⟨h.1, h.2.1, ⟨message, err.Error, h.2.2.1⟩, h.2.2.2⟩

theorem shape_error {σ : Type} (w : ResponseWriter) (message : String) (err : GoError)
    (s : σ) (calls : List Call) :
    ∃ m, IsErrorResponse w (errorAndReturn w message err s calls).w m err.Error :=
  ⟨message, (errorAndReturn_spec w message err s calls).2.2.1⟩

theorem not_500_ok {σ α : Type} [Marshal α] (w : ResponseWriter) (resp : α)
    (s : σ) (calls : List Call) :
    (okOrPanic w resp s calls).w.status ≠ w.status ++ [500] := by
  rw [(okOrPanic_spec w resp s calls).2.2.1.1]
  exact status_ne _

theorem not_200_error {σ : Type} (w : ResponseWriter) (message : String) (err : GoError)
    (s : σ) (calls : List Call) :
    (errorAndReturn w message err s calls).w.status ≠ w.status ++ [200] := by
  rw [(errorAndReturn_spec w message err s calls).2.2.1.1]
  exact fun h => status_ne _ h.symm

/-- C10: for every request, store, service and writer, each of the five comment
handlers (and the liveness route) makes at most one call on the service and
writes exactly one status, 200 or 500, under the content type
`application/json; charset=UTF-8`. -/
theorem handlers_reply_once {σ : Type} (lib : Lib Comment) (h : Handler σ) (op : Op)
    (w : ResponseWriter) (r : Request) (s : σ) :
    OneReply w (h.run lib op w r s) := by
  cases op <;>
    simp only [Handler.run, Handler.GetAllComments, Handler.PostComment, Handler.GetComment,
      Handler.UpdateComment, Handler.DeleteComment, Handler.Health] <;>
    (repeat' split) <;>
    first
    | exact oneReply_error _ _ _ _ _ (by simp)
    | exact oneReply_ok _ _ _ _ (by simp)

/-- C1 (amended): when the path id is not a non-empty string of decimal digits,
GetComment, UpdateComment and DeleteComment, and when the body fails to decode,
PostComment and UpdateComment, make no call on the service, leave the store
untouched and write one error response (status 500, a `Message`/`Error`
object); the handler returns when the write of that body succeeds and panics
with the error of the write when it fails. -/
theorem input_errors_rejected {σ : Type} (lib : Lib Comment) (h : Handler σ)
    (w : ResponseWriter) (r : Request) (s : σ) :
    (¬ isDecimal (muxVars r "id") →
      RejectsInput w s (h.GetComment lib w r s) ∧
      RejectsInput w s (h.UpdateComment lib w r s) ∧
      RejectsInput w s (h.DeleteComment lib w r s)) ∧
    (∀ e, lib.Decode r.Body = .error e →
      RejectsInput w s (h.PostComment lib w r s) ∧
      RejectsInput w s (h.UpdateComment lib w r s)) := by
  constructor
  · intro hid
    obtain ⟨e, he⟩ := ParseUint_not_decimal _ hid
    refine ⟨?_, ?_, ?_⟩
    · simp only [Handler.GetComment, he]
      exact rejects_error _ _ _ _
    · simp only [Handler.UpdateComment, he]
      split <;> exact rejects_error _ _ _ _
    · simp only [Handler.DeleteComment, he]
      exact rejects_error _ _ _ _
  · intro e he
    refine ⟨?_, ?_⟩
    · simp only [Handler.PostComment, he]
      exact rejects_error _ _ _ _
    · simp only [Handler.UpdateComment, he]
      exact rejects_error _ _ _ _

/-- C2: whatever the cause of an error response, a malformed id, a malformed
body or an error returned by a service operation, the response has status 500
and its body is an object with exactly the fields `Message` and `Error`, where
`Error` is the text of the underlying failure; and every response a handler
writes under status 500 has that shape. -/
theorem error_response_shape {σ : Type} (lib : Lib Comment) (h : Handler σ)
    (w : ResponseWriter) (r : Request) (s : σ) :
    (∀ e, ParseUint (muxVars r "id") = .error e →
      (∃ m, IsErrorResponse w (h.GetComment lib w r s).w m (e.toError lib.Quote).Error) ∧
      (∃ m, IsErrorResponse w (h.DeleteComment lib w r s).w m (e.toError lib.Quote).Error) ∧
      (∀ d, lib.Decode r.Body = .ok d →
        ∃ m, IsErrorResponse w (h.UpdateComment lib w r s).w m (e.toError lib.Quote).Error)) ∧
    (∀ e, lib.Decode r.Body = .error e →
      (∃ m, IsErrorResponse w (h.PostComment lib w r s).w m e.Error) ∧
      (∃ m, IsErrorResponse w (h.UpdateComment lib w r s).w m e.Error)) ∧
    (∀ i e s1, ParseUint (muxVars r "id") = .ok i →
      h.Service.GetComment (uint i) s = (.error e, s1) →
      ∃ m, IsErrorResponse w (h.GetComment lib w r s).w m e.Error) ∧
    (∀ e s1, h.Service.GetAllComments s = (.error e, s1) →
      ∃ m, IsErrorResponse w (h.GetAllComments w r s).w m e.Error) ∧
    (∀ d e s1, lib.Decode r.Body = .ok d → h.Service.PostComment d s = (.error e, s1) →
      ∃ m, IsErrorResponse w (h.PostComment lib w r s).w m e.Error) ∧
    (∀ d i e s1, lib.Decode r.Body = .ok d → ParseUint (muxVars r "id") = .ok i →
      h.Service.UpdateComment (uint i) d s = (.error e, s1) →
      ∃ m, IsErrorResponse w (h.UpdateComment lib w r s).w m e.Error) ∧
    (∀ i e s1, ParseUint (muxVars r "id") = .ok i →
      h.Service.DeleteComment (uint i) s = (some e, s1) →
      ∃ m, IsErrorResponse w (h.DeleteComment lib w r s).w m e.Error) ∧
    (∀ op, (h.run lib op w r s).w.status = w.status ++ [500] →
      ∃ m e, IsErrorResponse w (h.run lib op w r s).w m e) := by
  refine ⟨?_, ?_, ?_, ?_, ?_, ?_, ?_, ?_⟩
  · intro e he
    refine ⟨?_, ?_, ?_⟩
    · simp only [Handler.GetComment, he]
      exact shape_error _ _ _ _ _
    · simp only [Handler.DeleteComment, he]
      exact shape_error _ _ _ _ _
    · intro d hd
      simp only [Handler.UpdateComment, he, hd]
      exact shape_error _ _ _ _ _
  · intro e he
    refine ⟨?_, ?_⟩
    · simp only [Handler.PostComment, he]
      exact shape_error _ _ _ _ _
    · simp only [Handler.UpdateComment, he]
      exact shape_error _ _ _ _ _
  · intro i e s1 hi hs
    simp only [Handler.GetComment, hi, hs]
    exact shape_error _ _ _ _ _
  · intro e s1 hs
    simp only [Handler.GetAllComments, hs]
    exact shape_error _ _ _ _ _
  · intro d e s1 hd hs
    simp only [Handler.PostComment, hd, hs]
    exact shape_error _ _ _ _ _
  · intro d i e s1 hd hi hs
    simp only [Handler.UpdateComment, hd, hi, hs]
    exact shape_error _ _ _ _ _
  · intro i e s1 hi hs
    simp only [Handler.DeleteComment, hi, hs]
    exact shape_error _ _ _ _ _
  · intro op
    cases op <;>
      simp only [Handler.run, Handler.GetAllComments, Handler.PostComment, Handler.GetComment,
        Handler.UpdateComment, Handler.DeleteComment, Handler.Health] <;>
      (repeat' split) <;>
      intro hst <;>
      first
      | exact absurd hst (not_500_ok _ _ _ _)
      | exact ⟨_, _, (errorAndReturn_spec _ _ _ _ _).2.2.1⟩

theorem parse_decimal_uint (id : String) (hid : isDecimal id) (hv : decimalValue id < 2 ^ 64) :
    ParseUint id = .ok (decimalValue id) ∧ uint (decimalValue id) = decimalValue id :=
  ⟨ParseUint_decimal id hid hv, uint_of_lt _ hv⟩

/-- C3: for GetComment, GetAllComments, PostComment and UpdateComment, when the
input is well-formed and the service operation succeeds, the response has
status 200 and its body is the encoding of exactly the value the service
returned; the store is the one the service left. -/
theorem success_body_is_service_value {σ : Type} (lib : Lib Comment) (h : Handler σ)
    (w : ResponseWriter) (r : Request) (s : σ) :
    (∀ c s1, isDecimal (muxVars r "id") → decimalValue (muxVars r "id") < 2 ^ 64 →
      h.Service.GetComment (decimalValue (muxVars r "id")) s = (.ok c, s1) →
      IsOkResponse w (h.GetComment lib w r s).w (Marshal.marshal c) ∧
      (h.GetComment lib w r s).store = s1) ∧
    (∀ cs s1, h.Service.GetAllComments s = (.ok cs, s1) →
      IsOkResponse w (h.GetAllComments w r s).w (Marshal.marshal cs) ∧
      (h.GetAllComments w r s).store = s1) ∧
    (∀ d c s1, lib.Decode r.Body = .ok d → h.Service.PostComment d s = (.ok c, s1) →
      IsOkResponse w (h.PostComment lib w r s).w (Marshal.marshal c) ∧
      (h.PostComment lib w r s).store = s1) ∧
    (∀ d c s1, lib.Decode r.Body = .ok d →
      isDecimal (muxVars r "id") → decimalValue (muxVars r "id") < 2 ^ 64 →
      h.Service.UpdateComment (decimalValue (muxVars r "id")) d s = (.ok c, s1) →
      IsOkResponse w (h.UpdateComment lib w r s).w (Marshal.marshal c) ∧
      (h.UpdateComment lib w r s).store = s1) := by
  refine ⟨?_, ?_, ?_, ?_⟩
  · intro c s1 hid hv hs
    obtain ⟨hp, hu⟩ := parse_decimal_uint _ hid hv
    simp only [Handler.GetComment, hp, hu, hs]
    exact ⟨(okOrPanic_spec _ _ _ _).2.2.1, (okOrPanic_spec _ _ _ _).2.1⟩
  · intro cs s1 hs
    simp only [Handler.GetAllComments, hs]
    exact ⟨(okOrPanic_spec _ _ _ _).2.2.1, (okOrPanic_spec _ _ _ _).2.1⟩
  · intro d c s1 hd hs
    simp only [Handler.PostComment, hd, hs]
    exact ⟨(okOrPanic_spec _ _ _ _).2.2.1, (okOrPanic_spec _ _ _ _).2.1⟩
  · intro d c s1 hd hid hv hs
    obtain ⟨hp, hu⟩ := parse_decimal_uint _ hid hv
    simp only [Handler.UpdateComment, hd, hp, hu, hs]
    exact ⟨(okOrPanic_spec _ _ _ _).2.2.1, (okOrPanic_spec _ _ _ _).2.1⟩

theorem serve_health {σ : Type} (lib : Lib Comment) (h : Handler σ) (w : ResponseWriter)
    (vars : List (String × String)) (body : String) (s : σ) :
    h.SetupRoutes.ServeHTTP lib w ⟨"GET", "/api/health", vars, body⟩ s
      = some (okOrPanic w ({ Message := "I am alive!" } : Response) s []) := by
  have hm : routerMatch h.SetupRoutes.Router "GET" "/api/health" = some (.Health, []) := by rfl
  simp only [Handler.ServeHTTP, hm, Handler.run, Handler.Health]

/-- C4 (amended): GET /api/health answers with status 200 and the JSON object
with the two fields `Message`, "I am alive!", and `Error`, the empty string,
for every service and every state of its store, makes no call on the service
and leaves the store untouched. -/
theorem health_alive {σ : Type} (lib : Lib Comment) (h : Handler σ) (w : ResponseWriter)
    (vars : List (String × String)) (body : String) (s : σ) :
    ∃ res, h.SetupRoutes.ServeHTTP lib w ⟨"GET", "/api/health", vars, body⟩ s = some res ∧
      IsOkResponse w res.w (.obj [("Message", .str "I am alive!"), ("Error", .str "")]) ∧
      res.calls = [] ∧ res.store = s ∧ EndsBy w res.outcome := by
  refine ⟨_, serve_health lib h w vars body s, ?_⟩
  have hk := okOrPanic_spec w ({ Message := "I am alive!" } : Response) s []
  exact ⟨hk.2.2.1, hk.1, hk.2.1, hk.2.2.2⟩

/-- C5: UpdateComment identifies the comment by the path id only: for a
well-formed path id and a decodable body, the service's UpdateComment is called,
once, with the value of the path id and the draft decoded from the body, so a
request that differs only in its body reaches the same comment id. -/
theorem update_uses_path_id {σ : Type} (lib : Lib Comment) (h : Handler σ)
    (w : ResponseWriter) (r : Request) (s : σ) (d : Comment)
    (hid : isDecimal (muxVars r "id")) (hv : decimalValue (muxVars r "id") < 2 ^ 64)
    (hd : lib.Decode r.Body = .ok d) :
    (h.UpdateComment lib w r s).calls = [.UpdateComment (decimalValue (muxVars r "id")) d] ∧
    (∀ body2 d2, lib.Decode body2 = .ok d2 →
      (h.UpdateComment lib w { r with Body := body2 } s).calls
        = [.UpdateComment (decimalValue (muxVars r "id")) d2]) := by
  obtain ⟨hp, hu⟩ := parse_decimal_uint _ hid hv
  have key : ∀ (r2 : Request) (d2 : Comment), muxVars r2 "id" = muxVars r "id" →
      lib.Decode r2.Body = .ok d2 →
      (h.UpdateComment lib w r2 s).calls
        = [.UpdateComment (decimalValue (muxVars r "id")) d2] := by
    intro r2 d2 hvars hd2
    simp only [Handler.UpdateComment, hd2, hvars, hp, hu]
    split
    · exact (errorAndReturn_spec _ _ _ _ _).1
    · exact (okOrPanic_spec _ _ _ _).1
  exact ⟨key r d rfl hd, fun body2 d2 hd2 => key { r with Body := body2 } d2 rfl hd2⟩

/-- C6: deleting is never a silent no-op on failure: for a well-formed id, when
the service's DeleteComment reports a failure the handler writes the 500 error
response carrying that failure's text, and the success acknowledgment is
written if and only if the service's DeleteComment reported success. -/
theorem delete_failure_reported {σ : Type} (lib : Lib Comment) (h : Handler σ)
    (w : ResponseWriter) (r : Request) (s : σ)
    (hid : isDecimal (muxVars r "id")) (hv : decimalValue (muxVars r "id") < 2 ^ 64) :
    (∀ err s1, h.Service.DeleteComment (decimalValue (muxVars r "id")) s = (some err, s1) →
      IsErrorResponse w (h.DeleteComment lib w r s).w "Error deleting comment by ID" err.Error ∧
      EndsBy w (h.DeleteComment lib w r s).outcome) ∧
    (IsOkResponse w (h.DeleteComment lib w r s).w
        (Marshal.marshal ({ Message := "Successfully deleted comment" } : Response))
      ↔ (h.Service.DeleteComment (decimalValue (muxVars r "id")) s).1 = none) := by
  obtain ⟨hp, hu⟩ := parse_decimal_uint _ hid hv
  constructor
  · intro err s1 hs
    simp only [Handler.DeleteComment, hp, hu, hs]
    exact ⟨(errorAndReturn_spec _ _ _ _ _).2.2.1, (errorAndReturn_spec _ _ _ _ _).2.2.2⟩
  · rcases hs : h.Service.DeleteComment (decimalValue (muxVars r "id")) s with ⟨e, s1⟩
    cases e with
    | none =>
      simp only [Handler.DeleteComment, hp, hu, hs, iff_true]
      exact (okOrPanic_spec _ _ _ _).2.2.1
    | some err =>
      simp only [Handler.DeleteComment, hp, hu, hs, reduceCtorEq, iff_false]
      intro hok
      exact not_200_error _ _ _ _ _ hok.1

/-- C7 (amended): a successful DELETE /api/comments/{id} answers with status
200 and the JSON object with the two fields `Message`, "Successfully deleted
comment", and `Error`, the empty string. -/
theorem delete_success_body {σ : Type} (lib : Lib Comment) (h : Handler σ)
    (w : ResponseWriter) (r : Request) (s s1 : σ)
    (hid : isDecimal (muxVars r "id")) (hv : decimalValue (muxVars r "id") < 2 ^ 64)
    (hs : h.Service.DeleteComment (decimalValue (muxVars r "id")) s = (none, s1)) :
    IsOkResponse w (h.DeleteComment lib w r s).w
      (.obj [("Message", .str "Successfully deleted comment"), ("Error", .str "")]) ∧
    (h.DeleteComment lib w r s).store = s1 ∧
    EndsBy w (h.DeleteComment lib w r s).outcome := by
  obtain ⟨hp, hu⟩ := parse_decimal_uint _ hid hv
  simp only [Handler.DeleteComment, hp, hu, hs]
  have hk := okOrPanic_spec w ({ Message := "Successfully deleted comment" } : Response) s1
    [.DeleteComment (decimalValue (muxVars r "id"))]
  exact ⟨hk.2.2.1, hk.2.1, hk.2.2.2⟩

/-- C9: for every path id that is a non-empty string of decimal digits, leading
zeros allowed, whose value is below 2^64, the id parses to that value, the
conversion to the 64-bit `uint` keeps it, and GetComment, DeleteComment and
UpdateComment (given a decodable body) call the corresponding service operation
with that value. -/
theorem decimal_id_reaches_service {σ : Type} (lib : Lib Comment) (h : Handler σ)
    (w : ResponseWriter) (r : Request) (s : σ)
    (hid : isDecimal (muxVars r "id")) (hv : decimalValue (muxVars r "id") < 2 ^ 64) :
    ParseUint (muxVars r "id") = .ok (decimalValue (muxVars r "id")) ∧
    uint (decimalValue (muxVars r "id")) = decimalValue (muxVars r "id") ∧
    (h.GetComment lib w r s).calls = [.GetComment (decimalValue (muxVars r "id"))] ∧
    (h.DeleteComment lib w r s).calls = [.DeleteComment (decimalValue (muxVars r "id"))] ∧
    (∀ d, lib.Decode r.Body = .ok d →
      (h.UpdateComment lib w r s).calls
        = [.UpdateComment (decimalValue (muxVars r "id")) d]) := by
  obtain ⟨hp, hu⟩ := parse_decimal_uint _ hid hv
  refine ⟨hp, hu, ?_, ?_, ?_⟩
  · simp only [Handler.GetComment, hp, hu]
    split
    · exact (errorAndReturn_spec _ _ _ _ _).1
    · exact (okOrPanic_spec _ _ _ _).1
  · simp only [Handler.DeleteComment, hp, hu]
    split
    · exact (errorAndReturn_spec _ _ _ _ _).1
    · exact (okOrPanic_spec _ _ _ _).1
  · intro d hd
    simp only [Handler.UpdateComment, hd, hp, hu]
    split
    · exact (errorAndReturn_spec _ _ _ _ _).1
    · exact (okOrPanic_spec _ _ _ _).1

/-- C8: the route table dispatches GET /api/comments to GetAllComments, POST
/api/comments to PostComment, for every id segment GET, PUT and DELETE
/api/comments/{id} to GetComment, UpdateComment and DeleteComment with the
segment bound to `id`, and GET /api/health to the liveness response; no
(method, path) pair is matched by more than one route. -/
theorem routes_dispatch {σ : Type} (h : Handler σ) :
    routerMatch h.SetupRoutes.Router "GET" "/api/comments" = some (.GetAllComments, []) ∧
    routerMatch h.SetupRoutes.Router "POST" "/api/comments" = some (.PostComment, []) ∧
    (∀ id : String, isSegment id →
      routerMatch h.SetupRoutes.Router "GET" ("/api/comments/" ++ id)
        = some (.GetComment, [("id", id)]) ∧
      routerMatch h.SetupRoutes.Router "PUT" ("/api/comments/" ++ id)
        = some (.UpdateComment, [("id", id)]) ∧
      routerMatch h.SetupRoutes.Router "DELETE" ("/api/comments/" ++ id)
        = some (.DeleteComment, [("id", id)])) ∧
    routerMatch h.SetupRoutes.Router "GET" "/api/health" = some (.Health, []) ∧
    (∀ method path : String,
      (h.SetupRoutes.Router.filter (fun rt => (rt.Match method path).isSome)).length ≤ 1) := by
  refine ⟨by rfl, by rfl, ?_, by rfl, routes_unique h⟩
  intro id hid
  simp [Handler.SetupRoutes, routerMatch, match_list_route,
    match_id_route _ _ _ _ hid]

/-- C8, at the id segment `42`. -/
theorem routes_dispatch_witness :
    isSegment "42" ∧
    routerMatch sampleHandler.Router "GET" "/api/comments/42" = some (.GetComment, [("id", "42")]) ∧
    routerMatch sampleHandler.Router "PUT" "/api/comments/42"
      = some (.UpdateComment, [("id", "42")]) ∧
    routerMatch sampleHandler.Router "DELETE" "/api/comments/42"
      = some (.DeleteComment, [("id", "42")]) :=
  ⟨by decide, (routes_dispatch (NewHandler memoryService)).2.2.1 "42" (by decide)⟩

/-- C1, refuted as stated: on the path id `abc` and a writer whose `Write`
fails, GetComment does not return; it panics with the error of the write. -/
theorem input_error_panics :
    ¬ isDecimal (muxVars reqBadId "id") ∧
    (sampleHandler.GetComment sampleLib brokenWriter reqBadId sampleRows).outcome
      = .panicked ⟨"write: broken pipe"⟩ :=
  ⟨by decide, by rfl⟩

/-- C1 (amended), at the path id `abc` and at the empty body. -/
theorem input_errors_rejected_witness :
    (RejectsInput (.fresh none) sampleRows
        (sampleHandler.GetComment sampleLib (.fresh none) reqBadId sampleRows) ∧
      RejectsInput (.fresh none) sampleRows
        (sampleHandler.UpdateComment sampleLib (.fresh none) reqBadId sampleRows) ∧
      RejectsInput (.fresh none) sampleRows
        (sampleHandler.DeleteComment sampleLib (.fresh none) reqBadId sampleRows)) ∧
    (RejectsInput (.fresh none) sampleRows
        (sampleHandler.PostComment sampleLib (.fresh none) reqBadBody sampleRows) ∧
      RejectsInput (.fresh none) sampleRows
        (sampleHandler.UpdateComment sampleLib (.fresh none) reqBadBody sampleRows)) :=
  ⟨(input_errors_rejected sampleLib sampleHandler (.fresh none) reqBadId sampleRows).1
      (by decide),
    (input_errors_rejected sampleLib sampleHandler (.fresh none) reqBadBody sampleRows).2
      ⟨"EOF"⟩ (by rfl)⟩

/-- C4, refuted as stated: the body of the liveness response is not the object
with the single field `Message`; it carries the field `Error` as well. -/
theorem health_body_has_error_field :
    (sampleHandler.ServeHTTP sampleLib (.fresh none) ⟨"GET", "/api/health", [], ""⟩
        sampleRows).map (fun res => res.w.written)
      = some [.obj [("Message", .str "I am alive!"), ("Error", .str "")]] ∧
    (sampleHandler.ServeHTTP sampleLib (.fresh none) ⟨"GET", "/api/health", [], ""⟩
        sampleRows).map (fun res => res.w.written)
      ≠ some [.obj [("Message", .str "I am alive!")]] := by
  constructor
  · rfl
  · intro h
    have h2 : (some [Json.obj [("Message", .str "I am alive!"), ("Error", .str "")]] :
        Option (List Json)) = some [.obj [("Message", .str "I am alive!")]] := h
    simp at h2

/-- C7, refuted as stated: the body of a successful delete is not the object
with the single field `Message`; it carries the field `Error` as well. -/
theorem delete_body_has_error_field :
    (sampleHandler.ServeHTTP sampleLib (.fresh none) ⟨"DELETE", "/api/comments/7", [], ""⟩
        sampleRows).map (fun res => (res.w.status, res.w.written, res.store))
      = some ([200],
          [.obj [("Message", .str "Successfully deleted comment"), ("Error", .str "")]], []) ∧
    (sampleHandler.ServeHTTP sampleLib (.fresh none) ⟨"DELETE", "/api/comments/7", [], ""⟩
        sampleRows).map (fun res => res.w.written)
      ≠ some [.obj [("Message", .str "Successfully deleted comment")]] := by
  constructor
  · rfl
  · intro h
    have h2 : (some [Json.obj [("Message", .str "Successfully deleted comment"),
        ("Error", .str "")]] : Option (List Json))
        = some [.obj [("Message", .str "Successfully deleted comment")]] := h
    simp at h2

/-- C2, at a malformed id, a malformed body and a failure of each service
operation. -/
theorem error_response_shape_witness :
    ((∃ m, IsErrorResponse (.fresh none)
        (sampleHandler.GetComment sampleLib (.fresh none) reqBadId sampleRows).w m
        "strconv.ParseUint: parsing \"abc\": invalid syntax") ∧
      (∃ m, IsErrorResponse (.fresh none)
        (sampleHandler.DeleteComment sampleLib (.fresh none) reqBadId sampleRows).w m
        "strconv.ParseUint: parsing \"abc\": invalid syntax") ∧
      (∃ m, IsErrorResponse (.fresh none)
        (sampleHandler.UpdateComment sampleLib (.fresh none) reqBadId sampleRows).w m
        "strconv.ParseUint: parsing \"abc\": invalid syntax")) ∧
    ((∃ m, IsErrorResponse (.fresh none)
        (sampleHandler.PostComment sampleLib (.fresh none) reqBadBody sampleRows).w m "EOF") ∧
      (∃ m, IsErrorResponse (.fresh none)
        (sampleHandler.UpdateComment sampleLib (.fresh none) reqBadBody sampleRows).w m "EOF")) ∧
    (∃ m, IsErrorResponse (.fresh none)
      (sampleHandler.GetComment sampleLib (.fresh none) reqFive sampleRows).w m
      "record not found") ∧
    (∃ m, IsErrorResponse (.fresh none)
      (failingHandler.GetAllComments (.fresh none) reqFive ()).w m "connection refused") ∧
    (∃ m, IsErrorResponse (.fresh none)
      (failingHandler.PostComment sampleLib (.fresh none) reqFive ()).w m
      "connection refused") ∧
    (∃ m, IsErrorResponse (.fresh none)
      (sampleHandler.UpdateComment sampleLib (.fresh none) reqFive sampleRows).w m
      "record not found") ∧
    (∃ m, IsErrorResponse (.fresh none)
      (sampleHandler.DeleteComment sampleLib (.fresh none) reqFive sampleRows).w m
      "record not found") ∧
    (∃ m e, IsErrorResponse (.fresh none)
      (sampleHandler.run sampleLib .GetComment (.fresh none) reqBadId sampleRows).w m e) :=
  have a := (error_response_shape sampleLib sampleHandler (.fresh none) reqBadId sampleRows).1
    (syntaxError "ParseUint" "abc") (by rfl)
  have b := (error_response_shape sampleLib sampleHandler (.fresh none) reqBadBody
    sampleRows).2.1 ⟨"EOF"⟩ (by rfl)
  have c := error_response_shape sampleLib sampleHandler (.fresh none) reqFive sampleRows
  have d := error_response_shape sampleLib failingHandler (.fresh none) reqFive ()
  ⟨⟨a.1, a.2.1, a.2.2 ⟨0, "", "", ""⟩ (by rfl)⟩, b,
    c.2.2.1 5 ⟨"record not found"⟩ sampleRows (by rfl) (by rfl),
    d.2.2.2.1 ⟨"connection refused"⟩ () (by rfl),
    d.2.2.2.2.1 ⟨0, "", "", ""⟩ ⟨"connection refused"⟩ () (by rfl) (by rfl),
    c.2.2.2.2.2.1 ⟨0, "", "", ""⟩ 5 ⟨"record not found"⟩ sampleRows (by rfl) (by rfl) (by rfl),
    c.2.2.2.2.2.2.1 5 ⟨"record not found"⟩ sampleRows (by rfl) (by rfl),
    (error_response_shape sampleLib sampleHandler (.fresh none) reqBadId
      sampleRows).2.2.2.2.2.2.2 .GetComment (by rfl)⟩

/-- C3, on the store holding the comment 7. -/
theorem success_body_is_service_value_witness :
    (IsOkResponse (.fresh none)
        (sampleHandler.GetComment sampleLib (.fresh none) reqSeven sampleRows).w
        (Marshal.marshal (⟨7, "s7", "hello", "alice"⟩ : Comment)) ∧
      (sampleHandler.GetComment sampleLib (.fresh none) reqSeven sampleRows).store
        = sampleRows) ∧
    (IsOkResponse (.fresh none)
        (sampleHandler.GetAllComments (.fresh none) reqSeven sampleRows).w
        (Marshal.marshal (some sampleRows : Comments)) ∧
      (sampleHandler.GetAllComments (.fresh none) reqSeven sampleRows).store = sampleRows) ∧
    (IsOkResponse (.fresh none)
        (sampleHandler.PostComment sampleLib (.fresh none) reqSeven sampleRows).w
        (Marshal.marshal (⟨8, "s1", "", ""⟩ : Comment)) ∧
      (sampleHandler.PostComment sampleLib (.fresh none) reqSeven sampleRows).store
        = sampleRows ++ [⟨8, "s1", "", ""⟩]) ∧
    (IsOkResponse (.fresh none)
        (sampleHandler.UpdateComment sampleLib (.fresh none) reqSeven sampleRows).w
        (Marshal.marshal (⟨7, "s1", "", ""⟩ : Comment)) ∧
      (sampleHandler.UpdateComment sampleLib (.fresh none) reqSeven sampleRows).store
        = [⟨7, "s1", "", ""⟩]) :=
  have t := success_body_is_service_value sampleLib sampleHandler (.fresh none) reqSeven
    sampleRows
  ⟨t.1 ⟨7, "s7", "hello", "alice"⟩ sampleRows (by decide) (by decide) (by rfl),
    t.2.1 (some sampleRows) sampleRows (by rfl),
    t.2.2.1 ⟨9, "s1", "", ""⟩ ⟨8, "s1", "", ""⟩ (sampleRows ++ [⟨8, "s1", "", ""⟩]) (by rfl)
      (by rfl),
    t.2.2.2 ⟨9, "s1", "", ""⟩ ⟨7, "s1", "", ""⟩ [⟨7, "s1", "", ""⟩] (by rfl) (by decide)
      (by decide) (by rfl)⟩

/-- C5, at the path id `007` with a body that names the id 9, and with the
empty object as body. -/
theorem update_uses_path_id_witness :
    (sampleHandler.UpdateComment sampleLib (.fresh none) reqSeven sampleRows).calls
      = [.UpdateComment 7 ⟨9, "s1", "", ""⟩] ∧
    (sampleHandler.UpdateComment sampleLib (.fresh none)
        { reqSeven with Body := "\x7b\x7d" } sampleRows).calls
      = [.UpdateComment 7 ⟨0, "", "", ""⟩] :=
  have t := update_uses_path_id sampleLib sampleHandler (.fresh none) reqSeven sampleRows
    ⟨9, "s1", "", ""⟩ (by decide) (by decide) (by rfl)
  ⟨t.1, t.2 "\x7b\x7d" ⟨0, "", "", ""⟩ (by rfl)⟩

/-- C6, at the id 5, which the store does not hold, and at the id 7, which it
holds. -/
theorem delete_failure_reported_witness :
    (IsErrorResponse (.fresh none)
        (sampleHandler.DeleteComment sampleLib (.fresh none) reqFive sampleRows).w
        "Error deleting comment by ID" "record not found" ∧
      EndsBy (.fresh none)
        (sampleHandler.DeleteComment sampleLib (.fresh none) reqFive sampleRows).outcome) ∧
    IsOkResponse (.fresh none)
      (sampleHandler.DeleteComment sampleLib (.fresh none) reqSeven sampleRows).w
      (Marshal.marshal ({ Message := "Successfully deleted comment" } : Response)) :=
  ⟨(delete_failure_reported sampleLib sampleHandler (.fresh none) reqFive sampleRows
      (by decide) (by decide)).1 ⟨"record not found"⟩ sampleRows (by rfl),
    (delete_failure_reported sampleLib sampleHandler (.fresh none) reqSeven sampleRows
      (by decide) (by decide)).2.2 (by rfl)⟩

/-- C7 (amended), at the id 7 on the store that holds it. -/
theorem delete_success_body_witness :
    IsOkResponse (.fresh none)
      (sampleHandler.DeleteComment sampleLib (.fresh none) reqSeven sampleRows).w
      (.obj [("Message", .str "Successfully deleted comment"), ("Error", .str "")]) ∧
    (sampleHandler.DeleteComment sampleLib (.fresh none) reqSeven sampleRows).store = [] ∧
    EndsBy (.fresh none)
      (sampleHandler.DeleteComment sampleLib (.fresh none) reqSeven sampleRows).outcome :=
  delete_success_body sampleLib sampleHandler (.fresh none) reqSeven sampleRows []
    (by decide) (by decide) (by rfl)

/-- C9, at the largest id, 2^64 - 1, written with leading zeros. -/
theorem decimal_id_reaches_service_witness :
    ParseUint "0018446744073709551615" = .ok 18446744073709551615 ∧
    uint 18446744073709551615 = 18446744073709551615 ∧
    (sampleHandler.GetComment sampleLib (.fresh none) reqMax sampleRows).calls
      = [.GetComment 18446744073709551615] ∧
    (sampleHandler.DeleteComment sampleLib (.fresh none) reqMax sampleRows).calls
      = [.DeleteComment 18446744073709551615] ∧
    (sampleHandler.UpdateComment sampleLib (.fresh none) reqMax sampleRows).calls
      = [.UpdateComment 18446744073709551615 ⟨0, "", "", ""⟩] :=
  have t := decimal_id_reaches_service sampleLib sampleHandler (.fresh none) reqMax sampleRows
    (by decide) (by decide)
  ⟨t.1, t.2.1, t.2.2.1, t.2.2.2.1, t.2.2.2.2 ⟨0, "", "", ""⟩ (by rfl)⟩

end GoRest
